import Mathlib

/-
Verification of the data-loading and query/projection component of the
cse-dashboard repository (src/dashboard/dash_app.py), as a shallow embedding.

The embedding keeps the source's structure:
  load_parquets   : concatenation of the partition files' row-sets plus the
                    epoch-milliseconds to timestamp normalization, together
                    with the single-slot cache provided by lru_cache(maxsize=1)
                    (modelled as explicit state: a cached table and a count of
                    directory reads).
  _update         : the dashboard callback: filter by company and inclusive
                    date bounds, build the chart input from the filtered rows
                    in filtered order, pick the latest row for the KPI cards,
                    and compute the theme-dependent table styles.
  companies       : the sorted distinct company list of create_dash, with the
                    default selection companies[0].
Fallible operations (a raised FileNotFoundError, an IndexError from iloc[-1]
on an empty frame, indexing companies[0] of an empty list) are modelled with
Except and Option.
-/

namespace CseDashboard

/-- pandas Timestamp as produced by `pd.to_datetime(_, unit="ms")`: a point in
time identified by, and ordered by, its epoch-millisecond value. -/
structure Timestamp where
  ms : Nat
deriving DecidableEq, Repr

instance : LE Timestamp := ⟨fun a b => a.ms ≤ b.ms⟩

instance (a b : Timestamp) : Decidable (a ≤ b) :=
  inferInstanceAs (Decidable (a.ms ≤ b.ms))

/-- One row of a parquet partition file before timestamp normalization:
`period_end_date` is the raw integer epoch-milliseconds value. -/
structure RawRow where
  company_name : String
  period_end_date : Nat
  revenue : Int
  gross_profit : Int
  profit_before_tax : Int
  net_income_parent : Int
deriving DecidableEq, Repr

/-- One row of the in-memory table after `load_parquets`: the same record with
`period_end_date` normalized to a `Timestamp`. -/
structure Row where
  company_name : String
  period_end_date : Timestamp
  revenue : Int
  gross_profit : Int
  profit_before_tax : Int
  net_income_parent : Int
deriving DecidableEq, Repr

/-- Effect of `pd.to_datetime(d["period_end_date"], unit="ms")` on one row:
the epoch-milliseconds integer becomes a structured timestamp, every other
column is unchanged. -/
def parseRow (r : RawRow) : Row :=
  { company_name := r.company_name
    period_end_date := ⟨r.period_end_date⟩
    revenue := r.revenue
    gross_profit := r.gross_profit
    profit_before_tax := r.profit_before_tax
    net_income_parent := r.net_income_parent }

/-- Body of `load_parquets` (dash_app.py lines 28-33) without the cache:
`files` is the list of row-sets of the parquet files in `DATA_DIR`, in glob
order. Zero files raise `FileNotFoundError("No parquet files in data/")`;
otherwise the row-sets are concatenated in encounter order
(`pd.concat(dfs, ignore_index=True)`) and the date column is parsed. -/
def load_parquets (files : List (List RawRow)) : Except String (List Row) :=
  if files.isEmpty then .error "No parquet files in data/"
  else .ok (files.flatten.map parseRow)

/-- State of the `lru_cache(maxsize=1)` wrapper around `load_parquets`:
the cached table, if a call has succeeded, and how many times the data
directory has been read (each call of the body performs one read). -/
structure LoaderState where
  cache : Option (List Row)
  reads : Nat
deriving DecidableEq, Repr

/-- Loader state at process start: nothing cached, no reads. -/
def initState : LoaderState := ⟨none, 0⟩

/-- One call of the cached loader. A cache hit returns the stored table and
touches nothing. A miss runs the body, which reads the directory; a
successful result is stored, while an exception propagates uncached
(`functools.lru_cache` does not cache raised exceptions). -/
def load_cached (files : List (List RawRow)) (s : LoaderState) :
    Except String (List Row) × LoaderState :=
  match s.cache with
  | some t => (.ok t, s)
  | none =>
    match load_parquets files with
    | .ok t => (.ok t, ⟨some t, s.reads + 1⟩)
    | .error e => (.error e, ⟨none, s.reads + 1⟩)

/-- Loader state after `n` successive calls of the cached loader within one
process lifetime. -/
def loadCalls (files : List (List RawRow)) : Nat → LoaderState
  | 0 => initState
  | n + 1 => (load_cached files (loadCalls files n)).2

/-- Result observed by the caller of call number `n + 1`. -/
def loadResult (files : List (List RawRow)) (n : Nat) : Except String (List Row) :=
  (load_cached files (loadCalls files n)).1

/-- Lexicographic code-point order on strings, the order Python's `sorted`
uses on `company_name` values. -/
def strLeP (a b : String) : Prop := a.data ≤ b.data

instance : DecidableRel strLeP :=
  fun a b => inferInstanceAs (Decidable (a.data ≤ b.data))

instance : IsTotal String strLeP := ⟨fun a b => le_total a.data b.data⟩

instance : IsTrans String strLeP := ⟨fun _ _ _ h1 h2 => le_trans h1 h2⟩

/-- Comparison used by `dff.sort_values("period_end_date")`: rows ordered by
the timestamp column. -/
def dateLe (a b : Row) : Prop := a.period_end_date.ms ≤ b.period_end_date.ms

instance : DecidableRel dateLe :=
  fun a b => inferInstanceAs (Decidable (a.period_end_date.ms ≤ b.period_end_date.ms))

instance : IsTotal Row dateLe :=
  ⟨fun a b => Nat.le_total a.period_end_date.ms b.period_end_date.ms⟩

instance : IsTrans Row dateLe := ⟨fun _ _ _ h1 h2 => Nat.le_trans h1 h2⟩

/-- Filter of the `_update` callback (dash_app.py lines 196-198):
`df_all.query("company_name == @company and @start <= period_end_date <= @end")`,
keeping the table's row order. -/
def filterRows (df_all : List Row) (company : String) (start end_ : Timestamp) :
    List Row :=
  df_all.filter fun r =>
    r.company_name == company && decide (start ≤ r.period_end_date)
      && decide (r.period_end_date ≤ end_)

/-- Column lookup for the metric columns a user can request; the dropdown of
create_dash offers exactly these four names. -/
def Row.metric (r : Row) (m : String) : Option Int :=
  if m == "revenue" then some r.revenue
  else if m == "gross_profit" then some r.gross_profit
  else if m == "profit_before_tax" then some r.profit_before_tax
  else if m == "net_income_parent" then some r.net_income_parent
  else none

/-- Model of `dff.sort_values("period_end_date")`: the filtered rows reordered
so that `period_end_date` is non-decreasing. -/
def sort_values (dff : List Row) : List Row :=
  dff.insertionSort dateLe

/-- Digit groups of three, built from the least-significant end of a reversed
digit list. -/
def chunk3 : List Char → List (List Char)
  | [] => []
  | [a] => [[a]]
  | [a, b] => [[a, b]]
  | a :: b :: c :: rest => [a, b, c] :: chunk3 rest

/-- Python format `f"{x:,.0f}"` on an integer-valued quantity: the integer
rendered in decimal with a comma between each group of three digits,
no decimal places. -/
def formatThousands (x : Int) : String :=
  let ds := Nat.toDigits 10 x.natAbs
  let grouped := ((chunk3 ds.reverse).map List.reverse).reverse
  let s := String.mk (List.intercalate [','] grouped)
  if x < 0 then "-" ++ s else s

/-- DataTable style dictionary: a background color and a text color. -/
structure Style where
  backgroundColor : String
  color : String
deriving DecidableEq, Repr

/-- Everything the `_update` callback returns, with the figure reduced to its
data-bearing parts: the chart rows are the (x, y-columns) points handed to
`px.line`, each a `period_end_date` paired with the requested metric columns
of that row. -/
structure UpdateOutput where
  chart_template : String
  chart_title : String
  chart_rows : List (Timestamp × List (String × Option Int))
  table_rows : List Row
  style_header : Style
  style_data : Style
  kpi_rev : String
  kpi_gp : String
  kpi_net : String
deriving DecidableEq, Repr

/-- Callback `_update` of dash_app.py (lines 189-229). The rows handed to
`px.line` are the filtered rows as filtered (the source does not sort `dff`
before charting); the KPI row is `dff.sort_values("period_end_date").iloc[-1]`,
the last row of the date-sorted frame. On an empty filtered frame `iloc[-1]`
raises IndexError, modelled as `none`. -/
def _update (df_all : List Row) (company : String) (start end_ : Timestamp)
    (metrics : List String) (dark : Bool) : Option UpdateOutput :=
  ((sort_values (filterRows df_all company start end_)).getLast?).map fun latest =>
    { chart_template := if dark then "plotly_dark" else "plotly_white"
      chart_title := company ++ " - Selected metrics"
      chart_rows := (filterRows df_all company start end_).map fun r =>
        (r.period_end_date, metrics.map fun m => (m, r.metric m))
      table_rows := filterRows df_all company start end_
      style_header :=
        if dark then ⟨"rgb(30, 30, 30)", "white"⟩
        else ⟨"rgb(230, 230, 230)", "#212529"⟩
      style_data :=
        if dark then ⟨"rgb(50, 50, 50)", "white"⟩
        else ⟨"white", "#212529"⟩
      kpi_rev := formatThousands latest.revenue
      kpi_gp := formatThousands latest.gross_profit
      kpi_net := formatThousands latest.net_income_parent }

/-- Company dropdown options of create_dash (dash_app.py line 65):
`sorted(df_all["company_name"].unique())`, the distinct company names in
ascending order. -/
def companies (df_all : List Row) : List String :=
  ((df_all.map Row.company_name).dedup).insertionSort strLeP

/-- Default dropdown selection `companies[0]` (dash_app.py line 100); `none`
models the IndexError raised when the list is empty. -/
def defaultCompany (df_all : List Row) : Option String :=
  (companies df_all).head?

/-- Example row: Acme, period ending at 100 ms. -/
def acmeQ1 : Row := ⟨"Acme", ⟨100⟩, 100, 40, 25, 20⟩

/-- Example row: Acme, period ending at 200 ms. -/
def acmeQ2 : Row := ⟨"Acme", ⟨200⟩, 150, 60, 35, 30⟩

/-- Example row: Beta, period ending at 200 ms. -/
def betaQ : Row := ⟨"Beta", ⟨200⟩, 7, 6, 5, 4⟩

/-- Example row with a seven-digit revenue, period ending at 300 ms. -/
def bigRow : Row := ⟨"Acme", ⟨300⟩, 1234567, 2345678, 345678, 456789⟩

/-- Example table whose rows are in descending date order. -/
def exTable : List Row := [acmeQ2, acmeQ1]

/-- Example table with two companies, loaded in reverse alphabetical order. -/
def exTable2 : List Row := [betaQ, acmeQ1]

/-- Example one-row table holding `bigRow`. -/
def bigTable : List Row := [bigRow]

/-- Example raw parquet row for Acme. -/
def rawA : RawRow := ⟨"Acme", 100, 100, 40, 25, 20⟩

/-- Example raw parquet row for Beta. -/
def rawB : RawRow := ⟨"Beta", 200, 150, 60, 35, 30⟩

/-- Value of `_update exTable "Acme" ⟨0⟩ ⟨300⟩ ["revenue"] false`, written out;
the equation is proved below and used to instantiate hypotheses concretely. -/
def exOut : UpdateOutput :=
  { chart_template := "plotly_white"
    chart_title := "Acme - Selected metrics"
    chart_rows := [(⟨200⟩, [("revenue", some 150)]), (⟨100⟩, [("revenue", some 100)])]
    table_rows := [acmeQ2, acmeQ1]
    style_header := ⟨"rgb(230, 230, 230)", "#212529"⟩
    style_data := ⟨"white", "#212529"⟩
    kpi_rev := "150"
    kpi_gp := "60"
    kpi_net := "30" }

/-- Auxiliary: the element reported by `getLast?` belongs to the list. -/
theorem mem_of_getLast?_eq {α : Type} :
    ∀ {l : List α} {z : α}, l.getLast? = some z → z ∈ l
  | [], _, h => by simp at h
  | [a], z, h => by
      rw [List.getLast?_singleton] at h
      injection h with h1
      subst h1
      exact List.mem_singleton_self a
  | _ :: b :: t, z, h => by
      have h' : (b :: t).getLast? = some z := by
        simpa [List.getLast?_cons_cons] using h
      exact List.mem_cons_of_mem _ (mem_of_getLast?_eq h')

/-- Auxiliary: the element reported by `head?` belongs to the list. -/
theorem mem_of_head?_eq {α : Type} {l : List α} {c : α} (h : l.head? = some c) :
    c ∈ l := by
  cases l with
  | nil => simp at h
  | cons a t =>
    simp only [List.head?_cons, Option.some.injEq] at h
    simp [h]

/-- Auxiliary: in a pairwise-related list, the last element is related from
every member. -/
theorem getLast_ge_of_pairwise {α : Type} {r : α → α → Prop} (hrefl : ∀ a, r a a) :
    ∀ (l : List α), l.Pairwise r → ∀ z, l.getLast? = some z → ∀ x ∈ l, r x z
  | [], _, z, hz, x, hx => by simp at hx
  | [a], hp, z, hz, x, hx => by
      rw [List.getLast?_singleton] at hz
      injection hz with h1
      rcases List.mem_singleton.mp hx with rfl
      rw [← h1]
      exact hrefl x
  | a :: b :: t, hp, z, hz, x, hx => by
      have hz' : (b :: t).getLast? = some z := by
        simpa [List.getLast?_cons_cons] using hz
      obtain ⟨ha, hp'⟩ := List.pairwise_cons.mp hp
      rcases List.mem_cons.mp hx with rfl | hx'
      · exact ha z (mem_of_getLast?_eq hz')
      · exact getLast_ge_of_pairwise hrefl (b :: t) hp' z hz' x hx'

/-- Auxiliary: in a pairwise-related list, the head is related to every
member. -/
theorem head_le_of_pairwise {α : Type} {r : α → α → Prop} (hrefl : ∀ a, r a a)
    (l : List α) (hp : l.Pairwise r) (c : α) (hc : l.head? = some c) :
    ∀ x ∈ l, r c x := by
  cases l with
  | nil => simp at hc
  | cons a t =>
    simp only [List.head?_cons, Option.some.injEq] at hc
    subst hc
    intro x hx
    rcases List.mem_cons.mp hx with rfl | hx'
    · exact hrefl x
    · exact (List.pairwise_cons.mp hp).1 x hx'

/-- C1: the filtered result contains exactly the rows of the table whose
company_name equals the selected company and whose period_end_date lies
between the bounds, both bounds inclusive; every other row is excluded. -/
theorem filter_correct (df_all : List Row) (company : String) (s e : Timestamp)
    (r : Row) :
    r ∈ filterRows df_all company s e ↔
      r ∈ df_all ∧ r.company_name = company ∧
        s ≤ r.period_end_date ∧ r.period_end_date ≤ e := by
  simp [filterRows, List.mem_filter, and_assoc]

/-- C3: on the example table, a query matching zero rows (unknown company)
makes the update callback crash — the latest-row lookup `iloc[-1]` raises
IndexError, modelled as `none` — instead of returning a recoverable
empty-selection value. -/
theorem empty_selection_crashes :
    filterRows exTable "Nobody" ⟨0⟩ ⟨300⟩ = [] ∧
    _update exTable "Nobody" ⟨0⟩ ⟨300⟩ ["revenue"] false = none := ⟨rfl, rfl⟩

/-- C5: the loader fails with the FileNotFoundError exactly when the data
directory holds zero parquet files; with at least one file it returns a
table. -/
theorem load_notFound_iff_empty (files : List (List RawRow)) :
    (files = [] → load_parquets files = .error "No parquet files in data/") ∧
    (files ≠ [] → ∃ t, load_parquets files = .ok t) := by
  constructor
  · intro h
    simp [load_parquets, h]
  · intro h
    exact ⟨files.flatten.map parseRow, by simp [load_parquets, h]⟩

/-- C5 witness: concrete empty and one-file directories. -/
theorem load_notFound_iff_empty_witness :
    load_parquets [] = .error "No parquet files in data/" ∧
    (∃ t, load_parquets [[rawA]] = .ok t) :=
  ⟨(load_notFound_iff_empty []).1 rfl,
    (load_notFound_iff_empty [[rawA]]).2 (by decide)⟩

/-- C7: on a non-empty directory the loaded table is the concatenation of the
partition files' row-sets in encounter order with no deduplication, each raw
row mapped by the timestamp parse; the parse turns the integer
epoch-milliseconds column into the structured timestamp and leaves every
other column unchanged, so after load every row carries a parsed
period_end_date. -/
theorem load_concat_parse (files : List (List RawRow)) (h : files ≠ []) :
    load_parquets files = .ok (files.flatten.map parseRow) ∧
    (∀ raw : RawRow, (parseRow raw).period_end_date = ⟨raw.period_end_date⟩) ∧
    (files.flatten.map parseRow).length = (files.map List.length).sum := by
  refine ⟨by simp [load_parquets, h], fun raw => rfl, ?_⟩
  simp [List.length_flatten, Function.comp_def]

/-- C7 witness: two one-row files concatenate in encounter order. -/
theorem load_concat_parse_witness :
    load_parquets [[rawA], [rawB]] = .ok [parseRow rawA, parseRow rawB] ∧
    (parseRow rawA).period_end_date = ⟨100⟩ :=
  ⟨(load_concat_parse [[rawA], [rawB]] (by decide)).1,
    (load_concat_parse [[rawA], [rawB]] (by decide)).2.1 rawA⟩

/-- Auxiliary: whenever the callback returns, its chart rows are the filtered
rows in filter order, projected to the abscissa and the requested metric
columns. -/
theorem update_chart_rows (df_all : List Row) (company : String)
    (s e : Timestamp) (metrics : List String) (dark : Bool) (out : UpdateOutput)
    (h : _update df_all company s e metrics dark = some out) :
    out.chart_rows = (filterRows df_all company s e).map fun r =>
      (r.period_end_date, metrics.map fun m => (m, r.metric m)) := by
  cases hz : (sort_values (filterRows df_all company s e)).getLast? with
  | none => simp [_update, hz] at h
  | some latest =>
    simp only [_update, hz, Option.map_some', Option.some.injEq] at h
    rw [← h]

/-- C2: when the filter matches at least one row and `r` is the unique row
with the maximum period_end_date among them, the three KPI values are `r`'s
revenue, gross_profit and net_income_parent, each rendered as a
grouped-thousands, integer-rounded numeric string. -/
theorem kpi_from_latest_row (df_all : List Row) (company : String)
    (s e : Timestamp) (metrics : List String) (dark : Bool) (r : Row)
    (hr : r ∈ filterRows df_all company s e)
    (hmax : ∀ q ∈ filterRows df_all company s e,
      q ≠ r → q.period_end_date.ms < r.period_end_date.ms) :
    (_update df_all company s e metrics dark).map UpdateOutput.kpi_rev =
        some (formatThousands r.revenue) ∧
    (_update df_all company s e metrics dark).map UpdateOutput.kpi_gp =
        some (formatThousands r.gross_profit) ∧
    (_update df_all company s e metrics dark).map UpdateOutput.kpi_net =
        some (formatThousands r.net_income_parent) := by
  have hperm : (sort_values (filterRows df_all company s e)).Perm
      (filterRows df_all company s e) := List.perm_insertionSort dateLe _
  have hr' : r ∈ sort_values (filterRows df_all company s e) :=
    hperm.mem_iff.mpr hr
  have hsorted : (sort_values (filterRows df_all company s e)).Pairwise dateLe :=
    List.sorted_insertionSort dateLe _
  cases hz : (sort_values (filterRows df_all company s e)).getLast? with
  | none =>
    rw [List.getLast?_eq_none_iff] at hz
    rw [hz] at hr'
    simp at hr'
  | some z =>
    have hzr : z = r := by
      by_contra hne
      have hzmem : z ∈ filterRows df_all company s e :=
        hperm.mem_iff.mp (mem_of_getLast?_eq hz)
      have hlt := hmax z hzmem hne
      have hle : dateLe r z :=
        @getLast_ge_of_pairwise Row dateLe
          (fun a => Nat.le_refl a.period_end_date.ms)
          (sort_values (filterRows df_all company s e)) hsorted z hz r hr'
      exact absurd hle (Nat.not_le_of_lt hlt)
    subst hzr
    refine ⟨?_, ?_, ?_⟩ <;> simp [_update, hz]

/-- C2 witness: a one-row table whose revenue 1234567 is reported as the KPI
string "1,234,567". -/
theorem kpi_from_latest_row_witness :
    bigRow ∈ filterRows bigTable "Acme" ⟨0⟩ ⟨400⟩ ∧
    (_update bigTable "Acme" ⟨0⟩ ⟨400⟩ ["revenue"] false).map UpdateOutput.kpi_rev
      = some "1,234,567" := by
  refine ⟨by decide, ?_⟩
  exact (kpi_from_latest_row bigTable "Acme" ⟨0⟩ ⟨400⟩ ["revenue"] false bigRow
    (by decide) (by decide)).1

/-- C4 counterexample: on a table whose rows arrive in descending date order,
the chart receives abscissas [200, 100], which is not non-decreasing — the
callback does not sort the filtered frame before charting. -/
theorem chart_order_cex :
    (_update exTable "Acme" ⟨0⟩ ⟨300⟩ ["revenue"] false).map
        (fun o => o.chart_rows.map fun p => p.1.ms) = some [200, 100] ∧
    ¬ List.Sorted (· ≤ ·) [200, 100] := ⟨rfl, by decide⟩

/-- C4 (amended): for every query, the chart rows are the filtered rows in
their table order (the filter's natural order), not re-sorted by
period_end_date; only the KPI computation sorts. -/
theorem chart_rows_follow_filter_order (df_all : List Row) (company : String)
    (s e : Timestamp) (metrics : List String) (dark : Bool) (out : UpdateOutput)
    (h : _update df_all company s e metrics dark = some out) :
    out.chart_rows = (filterRows df_all company s e).map fun r =>
      (r.period_end_date, metrics.map fun m => (m, r.metric m)) :=
  update_chart_rows df_all company s e metrics dark out h

/-- C4 witness: the amended statement at the concrete descending-order
table. -/
theorem chart_rows_follow_filter_order_witness :
    _update exTable "Acme" ⟨0⟩ ⟨300⟩ ["revenue"] false = some exOut ∧
    exOut.chart_rows = (filterRows exTable "Acme" ⟨0⟩ ⟨300⟩).map fun r =>
      (r.period_end_date, ["revenue"].map fun m => (m, r.metric m)) :=
  ⟨rfl, chart_rows_follow_filter_order exTable "Acme" ⟨0⟩ ⟨300⟩ ["revenue"]
    false exOut rfl⟩

/-- Auxiliary: with a non-empty directory, every call leaves the loader in the
fully-cached one-read state. -/
theorem loader_state_eq (files : List (List RawRow)) (h : files ≠ []) :
    ∀ n : Nat, loadCalls files (n + 1) = ⟨some (files.flatten.map parseRow), 1⟩
  | 0 => by
      simp [loadCalls, load_cached, initState, load_parquets,
        List.isEmpty_eq_false.mpr h]
  | n + 1 => by
      show (load_cached files (loadCalls files (n + 1))).2 = _
      rw [loader_state_eq files h n]
      rfl

/-- C6 (amended): with at least one partition file the first call reads the
directory and builds the table and every later call hits the cache: after any
number of calls exactly one directory read has happened and every call
returned the identical table. With zero files nothing is cached and each call
re-reads the directory (see the counterexample). -/
theorem loader_idempotent (files : List (List RawRow)) (h : files ≠ []) (n : Nat) :
    (loadCalls files (n + 1)).reads = 1 ∧
    loadResult files n = .ok (files.flatten.map parseRow) := by
  constructor
  · rw [loader_state_eq files h n]
  · cases n with
    | zero =>
      show (load_cached files initState).1 = _
      simp [load_cached, initState, load_parquets, List.isEmpty_eq_false.mpr h]
    | succ m =>
      show (load_cached files (loadCalls files (m + 1))).1 = _
      rw [loader_state_eq files h m]
      rfl

/-- C6 counterexample: with an empty data directory nothing is cached, so two
calls perform two directory reads, refuting "the directory read happens at
most once regardless of call count". -/
theorem loader_reads_twice_cex :
    (loadCalls ([] : List (List RawRow)) 2).reads = 2 ∧
    ¬ (loadCalls ([] : List (List RawRow)) 2).reads ≤ 1 := ⟨rfl, by decide⟩

/-- C6 witness: three calls on a one-file directory: one read, and the third
call still returns the identical table. -/
theorem loader_idempotent_witness :
    (loadCalls [[rawA]] 3).reads = 1 ∧
    loadResult [[rawA]] 2 = .ok [parseRow rawA] :=
  ⟨(loader_idempotent [[rawA]] (by decide) 2).1,
    (loader_idempotent [[rawA]] (by decide) 2).2⟩

/-- C8: each chart row consists of the period_end_date abscissa and exactly
the requested metric columns in the requested order; no other metric field
appears. -/
theorem chart_metric_fields (df_all : List Row) (company : String)
    (s e : Timestamp) (metrics : List String) (dark : Bool) (out : UpdateOutput)
    (h : _update df_all company s e metrics dark = some out) :
    ∀ entry ∈ out.chart_rows, entry.2.map Prod.fst = metrics := by
  intro entry hentry
  rw [update_chart_rows df_all company s e metrics dark out h] at hentry
  obtain ⟨r, hrmem, rfl⟩ := List.mem_map.mp hentry
  simp [List.map_map, Function.comp_def]

/-- C8 witness: requesting only revenue yields chart entries whose field list
is exactly ["revenue"]. -/
theorem chart_metric_fields_witness :
    _update exTable "Acme" ⟨0⟩ ⟨300⟩ ["revenue"] false = some exOut ∧
    [("revenue", (some 150 : Option Int))].map Prod.fst = ["revenue"] :=
  ⟨rfl, chart_metric_fields exTable "Acme" ⟨0⟩ ⟨300⟩ ["revenue"] false exOut rfl
    (⟨200⟩, [("revenue", some 150)]) (by decide)⟩

/-- C9: the theme flag does not influence the data outputs — chart rows, table
rows and the three KPI strings are identical between the dark and light runs
of the callback on the same query; only the chart template and the table
styles read the flag. -/
theorem theme_noninterference (df_all : List Row) (company : String)
    (s e : Timestamp) (metrics : List String) (d1 d2 : Bool) :
    (_update df_all company s e metrics d1).map
        (fun o => (o.chart_rows, o.table_rows, o.kpi_rev, o.kpi_gp, o.kpi_net)) =
      (_update df_all company s e metrics d2).map
        (fun o => (o.chart_rows, o.table_rows, o.kpi_rev, o.kpi_gp, o.kpi_net)) := by
  cases hz : (sort_values (filterRows df_all company s e)).getLast? <;>
    simp [_update, hz]

/-- C10: the company selector holds each distinct company name of the table
exactly once, in ascending order; the default selection is the least of them;
and on a zero-row table the selector construction fails (companies[0] of an
empty list yields nothing). -/
theorem companies_sorted_default (df_all : List Row) :
    (companies df_all).Nodup ∧
    List.Sorted strLeP (companies df_all) ∧
    (∀ s : String, s ∈ companies df_all ↔ s ∈ df_all.map Row.company_name) ∧
    (df_all = [] → defaultCompany df_all = none) ∧
    (∀ c : String, defaultCompany df_all = some c →
      c ∈ companies df_all ∧ ∀ s ∈ companies df_all, strLeP c s) := by
  have hperm : (companies df_all).Perm ((df_all.map Row.company_name).dedup) :=
    List.perm_insertionSort strLeP _
  refine ⟨?_, ?_, ?_, ?_, ?_⟩
  · exact hperm.symm.nodup (List.nodup_dedup _)
  · exact List.sorted_insertionSort strLeP _
  · intro s
    rw [hperm.mem_iff, List.mem_dedup]
  · intro h
    subst h
    rfl
  · intro c hc
    refine ⟨mem_of_head?_eq hc, ?_⟩
    exact @head_le_of_pairwise String strLeP (fun a => le_refl a.data)
      (companies df_all) (List.sorted_insertionSort strLeP _) c hc

/-- C10 witness: a concrete two-company table loaded in reverse alphabetical
order, and the empty table. -/
theorem companies_sorted_default_witness :
    companies exTable2 = ["Acme", "Beta"] ∧
    defaultCompany ([] : List Row) = none ∧
    strLeP "Acme" "Beta" := by
  refine ⟨rfl, (companies_sorted_default ([] : List Row)).2.2.2.1 rfl, ?_⟩
  exact ((companies_sorted_default exTable2).2.2.2.2 "Acme" rfl).2 "Beta" (by decide)

end CseDashboard
